import Mathlib

/-!
Verification development for the phpIPAM MCP server's API client
(`src/client.ts`, with the config/error pieces from `src/config.ts` and
`src/types.ts`).  The client is shallowly embedded: JavaScript values that
cross the wire are modelled by a `Json` inductive, the mutable client state
(session token, response cache) and the observable actions (HTTP exchanges,
debug log lines, backoff sleeps) are threaded through a `RunState` record,
and the external world (the HTTP transport outcomes, the wall clock, and the
`node:crypto` AES-256-ECB primitive) is supplied by an `Env` record.
Exceptions (`throw`/`reject` of `PhpIpamError`) are modelled with `Except`.
-/

namespace PhpIpamMcp

/-- JavaScript/JSON values as they appear in API request and response bodies. -/
inductive Json where
  | null : Json
  | bool (b : Bool) : Json
  | num (n : Int) : Json
  | str (s : String) : Json
  | arr (elems : List Json) : Json
  | obj (fields : List (String × Json)) : Json

/-- JavaScript truthiness of a `Json` value. -/
def jsTruthy : Json → Bool
  | .null => false
  | .bool b => b
  | .num n => n != 0
  | .str s => s != ""
  | .arr _ => true
  | .obj _ => true

/-- Truthiness of a possibly-`undefined` value. -/
def jsOptTruthy : Option Json → Bool
  | none => false
  | some j => jsTruthy j

/-- Truthiness of a possibly-`undefined` string (`undefined` and `""` are falsy). -/
def strOptTruthy : Option String → Bool
  | none => false
  | some s => s != ""

/-- JavaScript `x || d` on an optional string: `undefined` and `""` fall back to `d`. -/
def jsOrStr (o : Option String) (d : String) : String :=
  match o with
  | none => d
  | some s => if s = "" then d else s

/-- JavaScript `x || []` on a possibly-`undefined` value. -/
def jsOrEmptyArr (o : Option Json) : Json :=
  match o with
  | none => .arr []
  | some j => if jsTruthy j then j else .arr []

/-- First binding of key `k` in a JavaScript object's field list. -/
def lookupField (fs : List (String × Json)) (k : String) : Option Json :=
  match fs with
  | [] => none
  | (k2, v) :: rest => if k2 = k then some v else lookupField rest k

/-- JavaScript property assignment `o[k] = v`: replace in place or append. -/
def setField (fs : List (String × Json)) (k : String) (v : Json) :
    List (String × Json) :=
  match fs with
  | [] => [(k, v)]
  | (k2, v2) :: rest =>
    if k2 = k then (k2, v) :: rest else (k2, v2) :: setField rest k v

/-- Model of `Object.assign(base, extra)`: assign every field of `extra` onto `base`. -/
def objAssign (base extra : List (String × Json)) : List (String × Json) :=
  extra.foldl (fun acc kv => setField acc kv.1 kv.2) base

/-- The `token` property of the login response's `data`, as read by
`authData?.token` (missing object, missing field, non-string or empty-string
values are all falsy). -/
def authTokenField : Option Json → Option String
  | some (.obj fs) =>
    (match lookupField fs "token" with
     | some (.str t) => if t = "" then none else some t
     | _ => none)
  | _ => none

/-- Model of `s.substring(0, n)`. -/
def takeChars (n : Nat) (s : String) : String :=
  String.mk (s.data.take n)

/-- UTF-8 encoding of one character (as `Buffer.from` performs it). -/
def charUtf8 (c : Char) : List Nat :=
  let n := c.toNat
  if n < 128 then [n]
  else if n < 2048 then [192 + n / 64, 128 + n % 64]
  else if n < 65536 then [224 + n / 4096, 128 + (n / 64) % 64, 128 + n % 64]
  else [240 + n / 262144, 128 + (n / 4096) % 64, 128 + (n / 64) % 64, 128 + n % 64]

/-- UTF-8 bytes of a string. -/
def utf8Bytes (s : String) : List Nat :=
  (s.data.map charUtf8).flatten

/-- One base64 alphabet character for a 6-bit value. -/
def b64Char (n : Nat) : Char :=
  if n < 26 then Char.ofNat (65 + n)
  else if n < 52 then Char.ofNat (97 + (n - 26))
  else if n < 62 then Char.ofNat (48 + (n - 52))
  else if n = 62 then Char.ofNat 43
  else Char.ofNat 47

/-- Base64 encoding of a byte list (`Buffer.toString('base64')`). -/
def base64encode : List Nat → String
  | [] => ""
  | [a] => String.mk [b64Char (a / 4), b64Char ((a % 4) * 16), Char.ofNat 61, Char.ofNat 61]
  | [a, b] =>
    String.mk [b64Char (a / 4), b64Char ((a % 4) * 16 + b / 16),
               b64Char ((b % 16) * 4), Char.ofNat 61]
  | a :: b :: c :: rest =>
    String.mk [b64Char (a / 4), b64Char ((a % 4) * 16 + b / 16),
               b64Char ((b % 16) * 4 + c / 64), b64Char (c % 64)] ++ base64encode rest

/-- Uppercase hexadecimal digit. -/
def hexUpper (n : Nat) : Char :=
  if n < 10 then Char.ofNat (48 + n) else Char.ofNat (65 + (n - 10))

/-- Bytes left intact by JavaScript's `encodeURIComponent`
(`A-Z a-z 0-9 - _ . ! ~ * ' ( )`). -/
def isUnreservedByte (b : Nat) : Bool :=
  (65 ≤ b && b ≤ 90) || (97 ≤ b && b ≤ 122) || (48 ≤ b && b ≤ 57) ||
  b == 45 || b == 95 || b == 46 || b == 33 || b == 126 || b == 42 ||
  b == 39 || b == 40 || b == 41

/-- JavaScript `encodeURIComponent`: percent-encode every UTF-8 byte outside
the unreserved set. -/
def encodeURIComponent (s : String) : String :=
  String.join ((utf8Bytes s).map (fun b =>
    if isUnreservedByte b then String.singleton (Char.ofNat b)
    else "%" ++ String.mk [hexUpper (b / 16), hexUpper (b % 16)]))

/-- Does `needle` occur at the start of `hay`? -/
def leadMatch : List Char → List Char → Bool
  | [], _ => true
  | _ :: _, [] => false
  | a :: as, b :: bs => a == b && leadMatch as bs

/-- Does `needle` occur anywhere in the character list? -/
def subScan (needle : List Char) : List Char → Bool
  | [] => leadMatch needle []
  | c :: rest => leadMatch needle (c :: rest) || subScan needle rest

/-- Substring containment on strings. -/
def strContains (hay needle : String) : Bool :=
  subScan needle.data hay.data

/-- JSON string escaping of one character, as `JSON.stringify` performs it. -/
def jsonEscapeChar (c : Char) : String :=
  if c.toNat = 34 then "\\\""
  else if c.toNat = 92 then "\\\\"
  else if c.toNat = 10 then "\\n"
  else if c.toNat = 13 then "\\r"
  else if c.toNat = 9 then "\\t"
  else if c.toNat = 8 then "\\b"
  else if c.toNat = 12 then "\\f"
  else if c.toNat < 32 then
    "\\u00" ++ String.mk [hexUpper (c.toNat / 16), hexUpper (c.toNat % 16)]
  else String.singleton c

/-- A JSON string literal. -/
def jsonQuote (s : String) : String :=
  "\"" ++ String.join (s.data.map jsonEscapeChar) ++ "\""

mutual

/-- Model of `JSON.stringify` on a `Json` value. -/
def Json.stringify : Json → String
  | .null => "null"
  | .bool b => if b then "true" else "false"
  | .num n => toString n
  | .str s => jsonQuote s
  | .arr es => "[" ++ stringifyArr es ++ "]"
  | .obj fs => "\x7b" ++ stringifyObj fs ++ "\x7d"

/-- Comma-separated serialization of array elements. -/
def stringifyArr : List Json → String
  | [] => ""
  | [j] => Json.stringify j
  | j :: rest => Json.stringify j ++ "," ++ stringifyArr rest

/-- Comma-separated serialization of object fields. -/
def stringifyObj : List (String × Json) → String
  | [] => ""
  | [(k, v)] => jsonQuote k ++ ":" ++ Json.stringify v
  | (k, v) :: rest => jsonQuote k ++ ":" ++ Json.stringify v ++ "," ++ stringifyObj rest

end

/-! ## Configuration (`src/config.ts`, `src/types.ts`) -/

/-- The configured authentication mode. -/
inductive AuthMode where
  | token : AuthMode
  | password : AuthMode
  | auto : AuthMode
deriving DecidableEq, Repr

/-- The `PhpIpamConfig` settings object (already validated by `loadConfig`). -/
structure PhpIpamConfig where
  baseUrl : String
  appId : String
  authMode : AuthMode
  token : Option String := none
  username : Option String := none
  password : Option String := none
  writeEnabled : Bool := false
  verifyTls : Bool := true
  enableCache : Bool := false
  debugHttp : Bool := false
  allowSubnetCreate : Bool := false
  allowSectionCreate : Bool := false
  timeout : Nat := 30000
  maxRetries : Nat := 3
  retryDelay : Nat := 1000
deriving DecidableEq, Repr

/-- The runtime value of `getEffectiveAuthMode` (`'token' | 'password'`). -/
inductive EffAuthMode where
  | token : EffAuthMode
  | password : EffAuthMode
deriving DecidableEq, Repr

/-- Function `getEffectiveAuthMode` from `src/config.ts`: explicit modes win, `auto`
prefers a (truthy) token. -/
def getEffectiveAuthMode (config : PhpIpamConfig) : EffAuthMode :=
  match config.authMode with
  | .token => .token
  | .password => .password
  | .auto => if strOptTruthy config.token then .token else .password

/-- The error taxonomy (`ErrorCode` in `src/types.ts`). -/
inductive ErrorCode where
  | AUTH : ErrorCode
  | VALIDATION : ErrorCode
  | NOT_FOUND : ErrorCode
  | CONFLICT : ErrorCode
  | RETRYABLE : ErrorCode
  | FORBIDDEN : ErrorCode
  | INTERNAL : ErrorCode
deriving DecidableEq, Repr

/-- The `PhpIpamError` class (`src/types.ts`). -/
structure PhpIpamError where
  message : String
  code : ErrorCode
  statusCode : Option Nat := none
  retryable : Bool := false
deriving DecidableEq, Repr

/-- The normalized `ApiResponse` shape every transport call produces. -/
structure ApiResponse where
  code : Nat
  success : Bool
  data : Option Json := none
  message : Option String := none

/-! ## Client state and environment -/

/-- The client's mutable session fields (`authToken`, `tokenExpires`). -/
structure Session where
  authToken : Option String := none
  tokenExpires : Nat := 0
deriving DecidableEq, Repr

/-- One concrete HTTP exchange as handed to the transport. -/
structure WireRequest where
  method : String
  url : String
  headers : List (String × String)
  body : Option String := none
deriving DecidableEq, Repr

/-- Observable state threaded through a run of the client: the session,
the response cache, and logs of the HTTP exchanges issued, debug lines
written to the diagnostic stream, and backoff sleeps performed. -/
structure RunState where
  session : Session := {}
  cache : List (String × (Option Json × Nat)) := []
  httpCount : Nat := 0
  attempts : List WireRequest := []
  logs : List String := []
  sleeps : List Nat := []

/-- Outcome of one HTTP exchange, as observed by `httpRequest`'s promise:
a received response (raw body text plus the result of `JSON.parse` shaped
into the `ApiResponse` fields), a connection-level `error` event, or a
`timeout` event. -/
inductive HttpEvent where
  | received (statusCode : Nat) (rawBody : String) (parsed : Option ApiResponse) : HttpEvent
  | netError (msg : String) : HttpEvent
  | timeout : HttpEvent

/-- The external world: the wall clock, the outcome of the n-th HTTP
exchange, and the `node:crypto` AES-256-ECB-and-base64 primitive used by
crypt mode (key bytes and UTF-8 plaintext to base64 ciphertext). -/
structure Env where
  now : Nat
  events : Nat → HttpEvent
  aesB64 : List Nat → String → String

/-! ## Crypt-mode encryption (`encryptRequest` in `src/client.ts`) -/

/-- Model of `Buffer.alloc(32)` followed by `Buffer.from(key).copy(keyBuffer)`:
the key's UTF-8 bytes truncated to 32 and zero-padded up to 32. -/
def padKey32 (key : String) : List Nat :=
  let kb := (utf8Bytes key).take 32
  kb ++ List.replicate (32 - kb.length) 0

/-- Function `encryptRequest`: AES-256-ECB (the `node:crypto` primitive from the
environment) under the padded key, base64, then `encodeURIComponent`. -/
def encryptRequest (env : Env) (data : String) (key : String) : String :=
  encodeURIComponent (env.aesB64 (padKey32 key) data)

/-! ## Transport (`httpRequest` in `src/client.ts`) -/

/-- The debug lines written before the exchange: `[HTTP] method url`, plus
the request body when one is present. -/
def debugLogsFor (cfg : PhpIpamConfig) (w : WireRequest) : List String :=
  if cfg.debugHttp then
    ["[HTTP] " ++ w.method ++ " " ++ w.url] ++
      (match w.body with
       | some b => ["[HTTP] Body: " ++ b]
       | none => [])
  else []

/-- State after issuing one wire exchange: the request is recorded, the
exchange counter advanced, the pre-exchange debug lines written. -/
def httpStateBase (cfg : PhpIpamConfig) (w : WireRequest) (st : RunState) :
    RunState :=
  { st with attempts := st.attempts ++ [w], httpCount := st.httpCount + 1,
            logs := st.logs ++ debugLogsFor cfg w }

/-- State after a response arrived: additionally the response debug line
(status code plus a 500-character excerpt of the raw body). -/
def httpStateResp (cfg : PhpIpamConfig) (w : WireRequest) (st : RunState)
    (sc : Nat) (raw : String) : RunState :=
  { httpStateBase cfg w st with
    logs := (httpStateBase cfg w st).logs ++
      (if cfg.debugHttp then
        ["[HTTP] Response " ++ toString sc ++ ": " ++ takeChars 500 raw]
       else []) }

/-- Method `httpRequest`: one HTTP exchange.  Records the wire request, writes the
debug lines, and interprets the transport outcome: a received body is parsed
(`JSON.parse`), an unparsable body is synthesized into a failed response
carrying a bounded excerpt, and an `error`/`timeout` event rejects with a
RETRYABLE `PhpIpamError`. -/
def httpRequest (cfg : PhpIpamConfig) (env : Env) (w : WireRequest)
    (st : RunState) : Except PhpIpamError ApiResponse × RunState :=
  match env.events st.httpCount with
  | .received sc raw parsed =>
    (match parsed with
     | some r => (.ok r, httpStateResp cfg w st sc raw)
     | none =>
       (.ok { code := sc, success := false, data := none,
              message := some ("Failed to parse response: " ++ takeChars 200 raw) },
        httpStateResp cfg w st sc raw))
  | .netError m =>
    (.error { message := "HTTP request failed: " ++ m, code := .RETRYABLE,
              statusCode := none, retryable := true }, httpStateBase cfg w st)
  | .timeout =>
    (.error { message := "Request timeout", code := .RETRYABLE,
              statusCode := none, retryable := true }, httpStateBase cfg w st)

/-! ## Session manager (`getAuthToken` in `src/client.ts`) -/

/-- Interpolation of a possibly-`undefined` string into a template literal. -/
def jsStr (o : Option String) : String :=
  match o with
  | none => "undefined"
  | some s => s

/-- The login exchange: `POST {baseUrl}/api/{appId}/user/` with an HTTP
Basic credential built from username/password, and no body. -/
def loginWire (cfg : PhpIpamConfig) : WireRequest :=
  { method := "POST"
  , url := cfg.baseUrl ++ "/api/" ++ cfg.appId ++ "/user/"
  , headers :=
      [("Authorization",
        "Basic " ++ base64encode (utf8Bytes (jsStr cfg.username ++ ":" ++ jsStr cfg.password))),
       ("Content-Type", "application/json")]
  , body := none }

/-- The AUTH error raised when the login response is unusable. -/
def authFailure (resp : ApiResponse) (st : RunState) :
    Except PhpIpamError String × RunState :=
  (.error { message := "Authentication failed: " ++ jsOrStr resp.message "Unknown error",
            code := .AUTH, statusCode := some resp.code, retryable := false }, st)

/-- The password-mode login: perform the login exchange; on a successful
response carrying a token, cache it with a five-hour tracked expiry;
otherwise raise AUTH (a transport rejection propagates unchanged). -/
def performLogin (cfg : PhpIpamConfig) (env : Env) (st : RunState) :
    Except PhpIpamError String × RunState :=
  match httpRequest cfg env (loginWire cfg) st with
  | (.error e, st1) => (.error e, st1)
  | (.ok resp, st1) =>
    if resp.success then
      match authTokenField resp.data with
      | some t =>
        (.ok t, { st1 with session :=
          { authToken := some t, tokenExpires := env.now + 5 * 60 * 60 * 1000 } })
      | none => authFailure resp st1
    else authFailure resp st1

/-- Method `getAuthToken`: static token in token mode; in password mode a cached,
unexpired session token is returned directly, otherwise a login is performed. -/
def getAuthToken (cfg : PhpIpamConfig) (env : Env) (st : RunState) :
    Except PhpIpamError String × RunState :=
  match getEffectiveAuthMode cfg with
  | .token => (.ok (cfg.token.getD ""), st)
  | .password =>
    match st.session.authToken with
    | some t =>
      if t ≠ "" ∧ env.now < st.session.tokenExpires then (.ok t, st)
      else performLogin cfg env st
    | none => performLogin cfg env st

/-! ## Error classification (`mapApiError` in `src/client.ts`) -/

/-- Method `mapApiError`: map a failed response to a `PhpIpamError` by status code;
a 401 additionally clears the cached session token. -/
def mapApiError (st : RunState) (response : ApiResponse) :
    PhpIpamError × RunState :=
  let code := response.code
  let message := jsOrStr response.message "Unknown error"
  if code = 401 then
    ({ message := message, code := .AUTH, statusCode := some code, retryable := false },
     { st with session := { st.session with authToken := none } })
  else if code = 403 then
    ({ message := message, code := .FORBIDDEN, statusCode := some code, retryable := false }, st)
  else if code = 404 then
    ({ message := message, code := .NOT_FOUND, statusCode := some code, retryable := false }, st)
  else if code = 409 then
    ({ message := message, code := .CONFLICT, statusCode := some code, retryable := false }, st)
  else if 500 ≤ code then
    ({ message := message, code := .RETRYABLE, statusCode := some code, retryable := true }, st)
  else
    ({ message := message, code := .VALIDATION, statusCode := some code, retryable := false }, st)

/-! ## Request orchestrator (`request` in `src/client.ts`) -/

/-- The `RequestOptions` of a logical call (the retry counter is threaded
separately). -/
structure RequestOptions where
  method : String
  path : String
  body : Option (List (String × Json)) := none

/-- Flag `useCrypt`: crypt mode is active exactly when token auth is effective. -/
def useCrypt (cfg : PhpIpamConfig) : Bool :=
  match getEffectiveAuthMode cfg with
  | .token => true
  | .password => false

/-- The non-empty path segments (`path.split('/').filter(p => p)`). -/
def nonEmptySegs (path : String) : List String :=
  (path.splitOn "/").filter (fun p => p ≠ "")

/-- The crypt-mode parameter object: a `controller` from the first non-empty
path segment, an `id` from the second when present, and the body fields
assigned on top. -/
def cryptParams (path : String) (body : Option (List (String × Json))) :
    List (String × Json) :=
  let pathParts := nonEmptySegs path
  let ps : List (String × Json) := [("controller", .str (pathParts.headD ""))]
  let ps := if pathParts.length > 1 then setField ps "id" (.str (pathParts.getD 1 "")) else ps
  match body with
  | some b => objAssign ps b
  | none => ps

/-- The wire request built for one attempt: in crypt mode a GET against the
app root with the encrypted parameter object in the query string and no
body; in standard mode the real method, the token in a header, and a JSON
body. -/
def buildWire (cfg : PhpIpamConfig) (env : Env) (opts : RequestOptions)
    (token : String) : WireRequest :=
  if useCrypt cfg then
    { method := "GET"
    , url := cfg.baseUrl ++ "/api/" ++ cfg.appId ++ "/?enc_request=" ++
        encryptRequest env (Json.stringify (.obj (cryptParams opts.path opts.body))) token
    , headers := [("Content-Type", "application/json")]
    , body := none }
  else
    { method := opts.method
    , url := cfg.baseUrl ++ "/api/" ++ cfg.appId ++ opts.path
    , headers := [("Content-Type", "application/json"), ("token", token)]
    , body := opts.body.map (fun b => Json.stringify (.obj b)) }

/-- Method `request`: obtain a credential (outside the try block), issue one wire
exchange, and interpret the outcome.  A failed response is classified by
`mapApiError`; a retryable error with attempts remaining sleeps
`retryDelay * 2 ^ retryCount` and re-enters with an incremented counter.
The recursive re-entry is a plain `return this.request(...)` (no `await`),
so its eventual rejection bypasses the enclosing catch and surfaces
directly. -/
def request (cfg : PhpIpamConfig) (env : Env) (opts : RequestOptions)
    (retryCount : Nat) (st : RunState) :
    Except PhpIpamError (Option Json) × RunState :=
  match getAuthToken cfg env st with
  | (.error e, st1) => (.error e, st1)
  | (.ok token, st1) =>
    match httpRequest cfg env (buildWire cfg env opts token) st1 with
    | (.error e, st2) =>
      if h : e.retryable = true ∧ retryCount < cfg.maxRetries then
        request cfg env opts (retryCount + 1)
          { st2 with sleeps := st2.sleeps ++ [cfg.retryDelay * 2 ^ retryCount] }
      else (.error e, st2)
    | (.ok resp, st2) =>
      if resp.success then (.ok resp.data, st2)
      else
        let pr := mapApiError st2 resp
        if h : pr.1.retryable = true ∧ retryCount < cfg.maxRetries then
          request cfg env opts (retryCount + 1)
            { pr.2 with sleeps := pr.2.sleeps ++ [cfg.retryDelay * 2 ^ retryCount] }
        else (.error pr.1, pr.2)
termination_by cfg.maxRetries - retryCount
decreasing_by
  · omega
  · omega

/-! ## Cache (`SimpleCache` in `src/client.ts`) and domain operations -/

/-- Method `SimpleCache.get`: a present entry is returned unless expired, in which
case it is deleted and treated as absent. -/
def cacheGet (env : Env) (st : RunState) (key : String) :
    Option (Option Json) × RunState :=
  match st.cache.lookup key with
  | none => (none, st)
  | some (v, expires) =>
    if env.now > expires then
      (none, { st with cache := st.cache.filter (fun kv => kv.1 ≠ key) })
    else (some v, st)

/-- Method `SimpleCache.set` with the client's 60-second TTL. -/
def cacheSet (env : Env) (st : RunState) (key : String) (v : Option Json) :
    RunState :=
  { st with cache := (key, (v, env.now + 60000)) :: st.cache.filter (fun kv => kv.1 ≠ key) }

/-- The fetch-and-cache path of `listSections` (the part after the cache
lookup misses). -/
def listSectionsFetch (cfg : PhpIpamConfig) (env : Env) (st : RunState) :
    Except PhpIpamError Json × RunState :=
  match request cfg env { method := "GET", path := "/sections/" } 0 st with
  | (.error e, st1) => (.error e, st1)
  | (.ok data, st1) =>
    let st2 := if cfg.enableCache then cacheSet env st1 "sections" data else st1
    (.ok (jsOrEmptyArr data), st2)

/-- Method `listSections`: serve from the cache when enabled and the entry is
truthy, otherwise fetch; a NOT_FOUND from the orchestrator is *not*
normalized here and propagates. -/
def listSections (cfg : PhpIpamConfig) (env : Env) (st : RunState) :
    Except PhpIpamError Json × RunState :=
  let (c, st0) := if cfg.enableCache then cacheGet env st "sections" else (none, st)
  match c with
  | some v => if jsOptTruthy v then (.ok (v.getD .null), st0) else listSectionsFetch cfg env st0
  | none => listSectionsFetch cfg env st0

/-- The fetch-and-cache path of `listSubnets`. -/
def listSubnetsFetch (cfg : PhpIpamConfig) (env : Env) (sectionId : String)
    (st : RunState) : Except PhpIpamError Json × RunState :=
  match request cfg env
      { method := "GET", path := "/sections/" ++ sectionId ++ "/subnets/" } 0 st with
  | (.error e, st1) =>
    if e.code = .NOT_FOUND then (.ok (.arr []), st1) else (.error e, st1)
  | (.ok data, st1) =>
    let st2 := if cfg.enableCache then cacheSet env st1 ("subnets:" ++ sectionId) data else st1
    (.ok (jsOrEmptyArr data), st2)

/-- Method `listSubnets`: like `listSections` but a NOT_FOUND is normalized to an
empty collection. -/
def listSubnets (cfg : PhpIpamConfig) (env : Env) (sectionId : String)
    (st : RunState) : Except PhpIpamError Json × RunState :=
  let (c, st0) :=
    if cfg.enableCache then cacheGet env st ("subnets:" ++ sectionId) else (none, st)
  match c with
  | some v =>
    if jsOptTruthy v then (.ok (v.getD .null), st0)
    else listSubnetsFetch cfg env sectionId st0
  | none => listSubnetsFetch cfg env sectionId st0

/-- Method `listAddresses`: list the addresses of a subnet; a NOT_FOUND is
normalized to an empty collection. -/
def listAddresses (cfg : PhpIpamConfig) (env : Env) (subnetId : String)
    (st : RunState) : Except PhpIpamError Json × RunState :=
  match request cfg env
      { method := "GET", path := "/subnets/" ++ subnetId ++ "/addresses/" } 0 st with
  | (.error e, st1) =>
    if e.code = .NOT_FOUND then (.ok (.arr []), st1) else (.error e, st1)
  | (.ok data, st1) => (.ok (jsOrEmptyArr data), st1)

/-- Method `getAddress`: get-by-id; every error, NOT_FOUND included, propagates. -/
def getAddress (cfg : PhpIpamConfig) (env : Env) (id : String) (st : RunState) :
    Except PhpIpamError (Option Json) × RunState :=
  request cfg env { method := "GET", path := "/addresses/" ++ id ++ "/" } 0 st

/-- Method `getSection`: get-by-id; every error propagates. -/
def getSection (cfg : PhpIpamConfig) (env : Env) (id : String) (st : RunState) :
    Except PhpIpamError (Option Json) × RunState :=
  request cfg env { method := "GET", path := "/sections/" ++ id ++ "/" } 0 st

/-- The record returned by `health`. -/
structure HealthResult where
  healthy : Bool
  message : String
deriving DecidableEq, Repr

/-- Method `health`: call `listSections` and absorb any failure into a
`{healthy, message}` record; it never raises. -/
def health (cfg : PhpIpamConfig) (env : Env) (st : RunState) :
    HealthResult × RunState :=
  match listSections cfg env st with
  | (.ok _, st1) => ({ healthy := true, message := "Connected to phpIPAM" }, st1)
  | (.error e, st1) => ({ healthy := false, message := e.message }, st1)

/-! ## Helper lemmas -/

@[simp]
theorem httpStateBase_attempts (cfg : PhpIpamConfig) (w : WireRequest) (st : RunState) :
    (httpStateBase cfg w st).attempts = st.attempts ++ [w] := rfl

@[simp]
theorem httpStateBase_sleeps (cfg : PhpIpamConfig) (w : WireRequest) (st : RunState) :
    (httpStateBase cfg w st).sleeps = st.sleeps := rfl

@[simp]
theorem httpStateBase_session (cfg : PhpIpamConfig) (w : WireRequest) (st : RunState) :
    (httpStateBase cfg w st).session = st.session := rfl

@[simp]
theorem httpStateBase_httpCount (cfg : PhpIpamConfig) (w : WireRequest) (st : RunState) :
    (httpStateBase cfg w st).httpCount = st.httpCount + 1 := rfl

@[simp]
theorem httpStateResp_attempts (cfg : PhpIpamConfig) (w : WireRequest) (st : RunState)
    (sc : Nat) (raw : String) :
    (httpStateResp cfg w st sc raw).attempts = st.attempts ++ [w] := rfl

@[simp]
theorem httpStateResp_sleeps (cfg : PhpIpamConfig) (w : WireRequest) (st : RunState)
    (sc : Nat) (raw : String) :
    (httpStateResp cfg w st sc raw).sleeps = st.sleeps := rfl

@[simp]
theorem httpStateResp_session (cfg : PhpIpamConfig) (w : WireRequest) (st : RunState)
    (sc : Nat) (raw : String) :
    (httpStateResp cfg w st sc raw).session = st.session := rfl

@[simp]
theorem httpStateResp_httpCount (cfg : PhpIpamConfig) (w : WireRequest) (st : RunState)
    (sc : Nat) (raw : String) :
    (httpStateResp cfg w st sc raw).httpCount = st.httpCount + 1 := rfl

theorem httpRequest_recv_some {env : Env} {st : RunState} {sc : Nat} {raw : String}
    {p : ApiResponse} (cfg : PhpIpamConfig) (w : WireRequest)
    (h : env.events st.httpCount = .received sc raw (some p)) :
    httpRequest cfg env w st = (.ok p, httpStateResp cfg w st sc raw) := by
  unfold httpRequest
  rw [h]

theorem httpRequest_recv_none {env : Env} {st : RunState} {sc : Nat} {raw : String}
    (cfg : PhpIpamConfig) (w : WireRequest)
    (h : env.events st.httpCount = .received sc raw none) :
    httpRequest cfg env w st =
      (.ok { code := sc, success := false, data := none,
             message := some ("Failed to parse response: " ++ takeChars 200 raw) },
       httpStateResp cfg w st sc raw) := by
  unfold httpRequest
  rw [h]

theorem httpRequest_netError {env : Env} {st : RunState} {m : String}
    (cfg : PhpIpamConfig) (w : WireRequest)
    (h : env.events st.httpCount = .netError m) :
    httpRequest cfg env w st =
      (.error { message := "HTTP request failed: " ++ m, code := .RETRYABLE,
                statusCode := none, retryable := true }, httpStateBase cfg w st) := by
  unfold httpRequest
  rw [h]

theorem httpRequest_timeout {env : Env} {st : RunState}
    (cfg : PhpIpamConfig) (w : WireRequest)
    (h : env.events st.httpCount = .timeout) :
    httpRequest cfg env w st =
      (.error { message := "Request timeout", code := .RETRYABLE,
                statusCode := none, retryable := true }, httpStateBase cfg w st) := by
  unfold httpRequest
  rw [h]

theorem getAuthToken_static {cfg : PhpIpamConfig}
    (h : getEffectiveAuthMode cfg = .token) (env : Env) (st : RunState) :
    getAuthToken cfg env st = (.ok (cfg.token.getD ""), st) := by
  unfold getAuthToken
  rw [h]

theorem getAuthToken_cached {cfg : PhpIpamConfig} {env : Env} {st : RunState} {t : String}
    (hm : getEffectiveAuthMode cfg = .password)
    (h1 : st.session.authToken = some t) (h2 : t ≠ "")
    (h3 : env.now < st.session.tokenExpires) :
    getAuthToken cfg env st = (.ok t, st) := by
  unfold getAuthToken
  rw [hm, h1]
  exact if_pos ⟨h2, h3⟩

theorem getAuthToken_fresh_none {cfg : PhpIpamConfig} {st : RunState}
    (hm : getEffectiveAuthMode cfg = .password)
    (h1 : st.session.authToken = none) (env : Env) :
    getAuthToken cfg env st = performLogin cfg env st := by
  unfold getAuthToken
  rw [hm, h1]

theorem getAuthToken_fresh_expired {cfg : PhpIpamConfig} {env : Env} {st : RunState}
    {t : String} (hm : getEffectiveAuthMode cfg = .password)
    (h1 : st.session.authToken = some t)
    (h3 : ¬ (t ≠ "" ∧ env.now < st.session.tokenExpires)) :
    getAuthToken cfg env st = performLogin cfg env st := by
  unfold getAuthToken
  rw [hm, h1]
  exact if_neg h3

theorem mapApiError_5xx {r : ApiResponse} (st : RunState) (h : 500 ≤ r.code) :
    mapApiError st r =
      ({ message := jsOrStr r.message "Unknown error", code := .RETRYABLE,
         statusCode := some r.code, retryable := true }, st) := by
  unfold mapApiError
  rw [if_neg (by omega), if_neg (by omega), if_neg (by omega), if_neg (by omega),
      if_pos h]

/-- A transport outcome whose classification is retryable: a connection
failure, a timeout, a failed response with a 5xx code, or an unparsable body
under a 5xx status. -/
def RetryableEv : HttpEvent → Prop
  | .timeout => True
  | .netError _ => True
  | .received _ _ (some p) => p.success = false ∧ 500 ≤ p.code
  | .received sc _ none => 500 ≤ sc


theorem request_auth_error {cfg : PhpIpamConfig} {env : Env} {st st1 : RunState}
    {e : PhpIpamError} (opts : RequestOptions) (r : Nat)
    (h : getAuthToken cfg env st = (.error e, st1)) :
    request cfg env opts r st = (.error e, st1) := by
  rw [request.eq_def, h]

theorem request_http_error {cfg : PhpIpamConfig} {env : Env} {st st1 st2 : RunState}
    {t : String} {e : PhpIpamError} (opts : RequestOptions) (r : Nat)
    (hga : getAuthToken cfg env st = (.ok t, st1))
    (hh : httpRequest cfg env (buildWire cfg env opts t) st1 = (.error e, st2)) :
    request cfg env opts r st =
      if e.retryable = true ∧ r < cfg.maxRetries then
        request cfg env opts (r + 1)
          { st2 with sleeps := st2.sleeps ++ [cfg.retryDelay * 2 ^ r] }
      else (.error e, st2) := by
  rw [request.eq_def, hga]
  show (match httpRequest cfg env (buildWire cfg env opts t) st1 with
        | (.error e, st2) =>
          if _ : e.retryable = true ∧ r < cfg.maxRetries then
            request cfg env opts (r + 1)
              { st2 with sleeps := st2.sleeps ++ [cfg.retryDelay * 2 ^ r] }
          else (.error e, st2)
        | (.ok resp, st2) =>
          if resp.success then (.ok resp.data, st2)
          else
            let pr := mapApiError st2 resp
            if _ : pr.1.retryable = true ∧ r < cfg.maxRetries then
              request cfg env opts (r + 1)
                { pr.2 with sleeps := pr.2.sleeps ++ [cfg.retryDelay * 2 ^ r] }
            else (.error pr.1, pr.2)) = _
  rw [hh]
  simp only [dite_eq_ite]

theorem request_http_ok {cfg : PhpIpamConfig} {env : Env} {st st1 st2 : RunState}
    {t : String} {resp : ApiResponse} (opts : RequestOptions) (r : Nat)
    (hga : getAuthToken cfg env st = (.ok t, st1))
    (hh : httpRequest cfg env (buildWire cfg env opts t) st1 = (.ok resp, st2)) :
    request cfg env opts r st =
      if resp.success then (.ok resp.data, st2)
      else
        if (mapApiError st2 resp).1.retryable = true ∧ r < cfg.maxRetries then
          request cfg env opts (r + 1)
            { (mapApiError st2 resp).2 with
              sleeps := (mapApiError st2 resp).2.sleeps ++ [cfg.retryDelay * 2 ^ r] }
        else (.error (mapApiError st2 resp).1, (mapApiError st2 resp).2) := by
  rw [request.eq_def, hga]
  show (match httpRequest cfg env (buildWire cfg env opts t) st1 with
        | (.error e, st2) =>
          if _ : e.retryable = true ∧ r < cfg.maxRetries then
            request cfg env opts (r + 1)
              { st2 with sleeps := st2.sleeps ++ [cfg.retryDelay * 2 ^ r] }
          else (.error e, st2)
        | (.ok resp, st2) =>
          if resp.success then (.ok resp.data, st2)
          else
            let pr := mapApiError st2 resp
            if _ : pr.1.retryable = true ∧ r < cfg.maxRetries then
              request cfg env opts (r + 1)
                { pr.2 with sleeps := pr.2.sleeps ++ [cfg.retryDelay * 2 ^ r] }
            else (.error pr.1, pr.2)) = _
  rw [hh]
  simp only [dite_eq_ite]

/-- Core retry-loop analysis: in password mode with a valid cached session
token, if every transport outcome is retryable then a call entered at retry
counter `r` with `m` retries remaining performs exactly `m + 1` wire
attempts, sleeps `retryDelay * 2 ^ (r + i)` before the i-th re-entry, and
finally surfaces a RETRYABLE error. -/
theorem request_allRetryable (cfg : PhpIpamConfig) (env : Env) (opts : RequestOptions)
    (t : String) (hm : getEffectiveAuthMode cfg = .password) (ht : t ≠ "")
    (hev : ∀ n, RetryableEv (env.events n)) :
    ∀ m r st, r + m = cfg.maxRetries →
      st.session.authToken = some t → env.now < st.session.tokenExpires →
      (∃ e, (request cfg env opts r st).1 = .error e ∧
        e.retryable = true ∧ e.code = .RETRYABLE) ∧
      (request cfg env opts r st).2.attempts.length = st.attempts.length + (m + 1) ∧
      (request cfg env opts r st).2.sleeps =
        st.sleeps ++ (List.range m).map (fun i => cfg.retryDelay * 2 ^ (r + i)) := by
  intro m
  induction m with
  | zero =>
    intro r st hr h1 h3
    have hga := getAuthToken_cached hm h1 ht h3
    have hnr : ¬ r < cfg.maxRetries := by omega
    cases hevn : env.events st.httpCount with
    | received sc raw parsed =>
      cases parsed with
      | none =>
        have h5 : 500 ≤ sc := by have h := hev st.httpCount; rw [hevn] at h; exact h
        rw [request_http_ok opts r hga (httpRequest_recv_none cfg _ hevn),
            if_neg (by simp), mapApiError_5xx _ (show (500 : Nat) ≤ _ from h5),
            if_neg (fun hc => hnr hc.2)]
        refine ⟨⟨_, rfl, rfl, rfl⟩, by simp, by simp⟩
      | some p =>
        have h5 := hev st.httpCount
        rw [hevn] at h5
        rw [request_http_ok opts r hga (httpRequest_recv_some cfg _ hevn),
            if_neg (by simp [h5.1]), mapApiError_5xx _ h5.2,
            if_neg (fun hc => hnr hc.2)]
        refine ⟨⟨_, rfl, rfl, rfl⟩, by simp, by simp⟩
    | netError msg =>
      rw [request_http_error opts r hga (httpRequest_netError cfg _ hevn),
          if_neg (fun hc => hnr hc.2)]
      refine ⟨⟨_, rfl, rfl, rfl⟩, by simp, by simp⟩
    | timeout =>
      rw [request_http_error opts r hga (httpRequest_timeout cfg _ hevn),
          if_neg (fun hc => hnr hc.2)]
      refine ⟨⟨_, rfl, rfl, rfl⟩, by simp, by simp⟩
  | succ m ih =>
    intro r st hr h1 h3
    have hga := getAuthToken_cached hm h1 ht h3
    have hrlt : r < cfg.maxRetries := by omega
    have hmap : ∀ l : List Nat,
        l ++ [cfg.retryDelay * 2 ^ r] ++
          (List.range m).map (fun i => cfg.retryDelay * 2 ^ (r + 1 + i)) =
        l ++ (List.range (m + 1)).map (fun i => cfg.retryDelay * 2 ^ (r + i)) := by
      intro l
      rw [List.range_succ_eq_map, List.map_cons, List.map_map, List.append_assoc]
      simp only [Nat.add_zero, List.singleton_append]
      congr 2
      apply List.map_congr_left
      intro i _
      have hi : r + 1 + i = r + Nat.succ i := by omega
      simp [Function.comp, hi]
    cases hevn : env.events st.httpCount with
    | received sc raw parsed =>
      cases parsed with
      | none =>
        have h5 : 500 ≤ sc := by have h := hev st.httpCount; rw [hevn] at h; exact h
        rw [request_http_ok opts r hga (httpRequest_recv_none cfg _ hevn),
            if_neg (by simp), mapApiError_5xx _ (show (500 : Nat) ≤ _ from h5),
            if_pos ⟨rfl, hrlt⟩]
        obtain ⟨he, ha, hs⟩ := ih (r + 1)
          { httpStateResp cfg (buildWire cfg env opts t) st sc raw with
            sleeps := (httpStateResp cfg (buildWire cfg env opts t) st sc raw).sleeps ++
              [cfg.retryDelay * 2 ^ r] }
          (by omega) (by simpa using h1) (by simpa using h3)
        refine ⟨he, ?_, ?_⟩
        · rw [ha]; simp; omega
        · rw [hs]; simp only [httpStateResp_sleeps]; exact hmap st.sleeps
      | some p =>
        have h5 := hev st.httpCount
        rw [hevn] at h5
        rw [request_http_ok opts r hga (httpRequest_recv_some cfg _ hevn),
            if_neg (by simp [h5.1]), mapApiError_5xx _ h5.2,
            if_pos ⟨rfl, hrlt⟩]
        obtain ⟨he, ha, hs⟩ := ih (r + 1)
          { httpStateResp cfg (buildWire cfg env opts t) st sc raw with
            sleeps := (httpStateResp cfg (buildWire cfg env opts t) st sc raw).sleeps ++
              [cfg.retryDelay * 2 ^ r] }
          (by omega) (by simpa using h1) (by simpa using h3)
        refine ⟨he, ?_, ?_⟩
        · rw [ha]; simp; omega
        · rw [hs]; simp only [httpStateResp_sleeps]; exact hmap st.sleeps
    | netError msg =>
      rw [request_http_error opts r hga (httpRequest_netError cfg _ hevn),
          if_pos ⟨rfl, hrlt⟩]
      obtain ⟨he, ha, hs⟩ := ih (r + 1)
        { httpStateBase cfg (buildWire cfg env opts t) st with
          sleeps := (httpStateBase cfg (buildWire cfg env opts t) st).sleeps ++
            [cfg.retryDelay * 2 ^ r] }
        (by omega) (by simpa using h1) (by simpa using h3)
      refine ⟨he, ?_, ?_⟩
      · rw [ha]; simp; omega
      · rw [hs]; simp only [httpStateBase_sleeps]; exact hmap st.sleeps
    | timeout =>
      rw [request_http_error opts r hga (httpRequest_timeout cfg _ hevn),
          if_pos ⟨rfl, hrlt⟩]
      obtain ⟨he, ha, hs⟩ := ih (r + 1)
        { httpStateBase cfg (buildWire cfg env opts t) st with
          sleeps := (httpStateBase cfg (buildWire cfg env opts t) st).sleeps ++
            [cfg.retryDelay * 2 ^ r] }
        (by omega) (by simpa using h1) (by simpa using h3)
      refine ⟨he, ?_, ?_⟩
      · rw [ha]; simp; omega
      · rw [hs]; simp only [httpStateBase_sleeps]; exact hmap st.sleeps

/-! ## Claim C1 -/

/-- C1: for every `request` call whose every transport outcome is retryable
(timeout, connection failure, or a response classified RETRYABLE), the
client retries while the attempt index is below `maxRetries`, sleeping
`retryDelay * 2 ^ attemptIndex` before each retry (attempt index starting
at 0), performing `maxRetries + 1` attempts in total, and finally surfaces
a RETRYABLE error to the caller. -/
theorem c1_retry_backoff (cfg : PhpIpamConfig) (env : Env) (opts : RequestOptions)
    (t : String) (st : RunState)
    (hm : getEffectiveAuthMode cfg = .password) (ht : t ≠ "")
    (hev : ∀ n, RetryableEv (env.events n))
    (h1 : st.session.authToken = some t) (h3 : env.now < st.session.tokenExpires) :
    (∃ e, (request cfg env opts 0 st).1 = .error e ∧
      e.retryable = true ∧ e.code = .RETRYABLE) ∧
    (request cfg env opts 0 st).2.attempts.length =
      st.attempts.length + (cfg.maxRetries + 1) ∧
    (request cfg env opts 0 st).2.sleeps =
      st.sleeps ++ (List.range cfg.maxRetries).map (fun i => cfg.retryDelay * 2 ^ i) := by
  obtain ⟨he, ha, hs⟩ := request_allRetryable cfg env opts t hm ht hev
    cfg.maxRetries 0 st (by omega) h1 h3
  refine ⟨he, ha, ?_⟩
  rw [hs]
  congr 1
  apply List.map_congr_left
  intro i _
  simp

/-- Configuration for the C1 scenario: password mode, `maxRetries = 3`,
`retryDelay = 1000`. -/
def cfgC1 : PhpIpamConfig :=
  { baseUrl := "https://ipam", appId := "app", authMode := .password,
    username := some "admin", password := some "pw",
    maxRetries := 3, retryDelay := 1000 }

/-- The `{code:500, success:false}` response of the C1 scenario. -/
def respC1 : ApiResponse :=
  { code := 500, success := false, data := none, message := some "Server error" }

/-- Environment for the C1 scenario: every attempt yields `respC1`. -/
def envC1 : Env :=
  { now := 1000, events := fun _ => .received 500 "" (some respC1),
    aesB64 := fun _ d => d }

/-- Initial state for the C1 scenario: a valid cached session token. -/
def stC1 : RunState :=
  { session := { authToken := some "sess", tokenExpires := 999999 } }

/-- The logical call of the C1 scenario. -/
def optsC1 : RequestOptions := { method := "POST", path := "/addresses/" }

/-- Witness for C1: with `maxRetries = 3` and `retryDelay = 1000`, a call
whose every attempt yields `{code:500, success:false}` performs exactly 4
attempts, sleeps `[1000, 2000, 4000]` (cumulative 7000 ms), and surfaces a
RETRYABLE error. -/
theorem c1_retry_backoff_witness :
    (∃ e, (request cfgC1 envC1 optsC1 0 stC1).1 = .error e ∧
      e.retryable = true ∧ e.code = .RETRYABLE) ∧
    (request cfgC1 envC1 optsC1 0 stC1).2.attempts.length = 4 ∧
    (request cfgC1 envC1 optsC1 0 stC1).2.sleeps = [1000, 2000, 4000] ∧
    ([1000, 2000, 4000] : List Nat).sum = 7000 := by
  obtain ⟨he, ha, hs⟩ := c1_retry_backoff cfgC1 envC1 optsC1 "sess" stC1
    rfl (by decide) (fun n => ⟨rfl, by decide⟩) rfl (by decide)
  refine ⟨he, ?_, ?_, by decide⟩
  · rw [ha]; rfl
  · rw [hs]; rfl

theorem httpRequest_attempts (cfg : PhpIpamConfig) (env : Env) (w : WireRequest)
    (st : RunState) :
    (httpRequest cfg env w st).2.attempts = st.attempts ++ [w] := by
  unfold httpRequest
  cases env.events st.httpCount with
  | received sc raw parsed => cases parsed <;> simp
  | netError m => simp
  | timeout => simp

theorem httpRequest_sleeps (cfg : PhpIpamConfig) (env : Env) (w : WireRequest)
    (st : RunState) :
    (httpRequest cfg env w st).2.sleeps = st.sleeps := by
  unfold httpRequest
  cases env.events st.httpCount with
  | received sc raw parsed => cases parsed <;> simp
  | netError m => simp
  | timeout => simp

theorem performLogin_attempts (cfg : PhpIpamConfig) (env : Env) (st : RunState) :
    (performLogin cfg env st).2.attempts = st.attempts ++ [loginWire cfg] := by
  unfold performLogin
  rcases hh : httpRequest cfg env (loginWire cfg) st with ⟨res, st1⟩
  have hp := httpRequest_attempts cfg env (loginWire cfg) st
  rw [hh] at hp
  simp only [] at hp
  rcases res with e | resp
  · simpa using hp
  · by_cases hs : resp.success <;> rcases hf : authTokenField resp.data with _ | t <;>
      simp [hs, hf, authFailure, hp]

theorem performLogin_sleeps (cfg : PhpIpamConfig) (env : Env) (st : RunState) :
    (performLogin cfg env st).2.sleeps = st.sleeps := by
  unfold performLogin
  rcases hh : httpRequest cfg env (loginWire cfg) st with ⟨res, st1⟩
  have hp := httpRequest_sleeps cfg env (loginWire cfg) st
  rw [hh] at hp
  simp only [] at hp
  rcases res with e | resp
  · simpa using hp
  · by_cases hs : resp.success <;> rcases hf : authTokenField resp.data with _ | t <;>
      simp [hs, hf, authFailure, hp]

theorem performLogin_reject {cfg : PhpIpamConfig} {env : Env} {st st1 : RunState}
    {e : PhpIpamError}
    (hh : httpRequest cfg env (loginWire cfg) st = (.error e, st1)) :
    performLogin cfg env st = (.error e, st1) := by
  unfold performLogin
  rw [hh]

/-! ## Claim C2 -/

/-- Configuration for the C2 scenario: password mode with `debugHttp`. -/
def cfgC2 : PhpIpamConfig :=
  { baseUrl := "https://ipam", appId := "app", authMode := .password,
    username := some "admin", password := some "pw", debugHttp := true }

/-- The raw body of the login response in the C2 scenario; it carries the
session token issued by the provider. -/
def rawC2 : String :=
  "\x7b\"code\":200,\"success\":true,\"data\":\x7b\"token\":\"sessSECRET\"\x7d\x7d"

/-- Environment for the C2 scenario: the login succeeds and returns the
session token `sessSECRET`. -/
def envC2 : Env :=
  { now := 1000
  , events := fun _ => .received 200 rawC2
      (some { code := 200, success := true,
              data := some (.obj [("token", .str "sessSECRET")]), message := none })
  , aesB64 := fun _ d => d }

/-- C2 (refuted; evidence for the code bug): with `debugHttp` enabled, a
password-mode login succeeds with session token `sessSECRET`, and one of
the debug lines written to the diagnostic stream — the response log, which
echoes a 500-character excerpt of the raw login body — contains that
session token, contradicting the documented hard invariant that credential
material is never logged. -/
theorem c2_debug_logs_session_token :
    (getAuthToken cfgC2 envC2 {}).1 = .ok "sessSECRET" ∧
    ((getAuthToken cfgC2 envC2 {}).2.logs.any
      (fun l => strContains l "sessSECRET")) = true := by
  constructor <;> rfl

/-! ## Claim C3 -/

/-- C3: classifying a 401 response clears the cached session token (and
yields an AUTH error); classifying any other status leaves the whole run
state untouched; and in password mode with no cached token the next
credential acquisition issues the login exchange on the wire. -/
theorem c3_401_clears_session :
    (∀ (st : RunState) (r : ApiResponse), r.code = 401 →
      (mapApiError st r).2.session.authToken = none ∧
      (mapApiError st r).1.code = .AUTH) ∧
    (∀ (st : RunState) (r : ApiResponse), r.code ≠ 401 →
      (mapApiError st r).2 = st) ∧
    (∀ (cfg : PhpIpamConfig) (env : Env) (st : RunState),
      getEffectiveAuthMode cfg = .password → st.session.authToken = none →
      (getAuthToken cfg env st).2.attempts = st.attempts ++ [loginWire cfg]) := by
  refine ⟨?_, ?_, ?_⟩
  · intro st r h
    unfold mapApiError
    rw [if_pos h]
    exact ⟨rfl, rfl⟩
  · intro st r h
    unfold mapApiError
    rw [if_neg h]
    split_ifs <;> rfl
  · intro cfg env st hm h1
    rw [getAuthToken_fresh_none hm h1 env]
    exact performLogin_attempts cfg env st

/-- A 401 response used by witnesses. -/
def resp401 : ApiResponse :=
  { code := 401, success := false, data := none, message := some "Unauthorized" }

/-- A 403 response used by witnesses. -/
def resp403 : ApiResponse :=
  { code := 403, success := false, data := none, message := some "Forbidden" }

/-- A generic environment whose every exchange times out. -/
def envNull : Env :=
  { now := 0, events := fun _ => .timeout, aesB64 := fun _ d => d }

/-- Witness for C3 at concrete inputs: a 401 clears the cached token of
`stC1`, a 403 leaves the state intact, and a credential acquisition with an
empty session issues the login exchange. -/
theorem c3_401_clears_session_witness :
    (mapApiError stC1 resp401).2.session.authToken = none ∧
    (mapApiError stC1 resp403).2 = stC1 ∧
    (getAuthToken cfgC2 envNull {}).2.attempts = [] ++ [loginWire cfgC2] := by
  refine ⟨(c3_401_clears_session.1 stC1 resp401 rfl).1,
          c3_401_clears_session.2.1 stC1 resp403 (by decide),
          c3_401_clears_session.2.2 cfgC2 envNull {} rfl rfl⟩

/-! ## Claim C4 -/

/-- Modelled from the spec: the error kind the specification prescribes for
a failed response with the given status code (`401 → AUTH`,
`403 → FORBIDDEN`, `404 → NOT_FOUND`, `409 → CONFLICT`, `≥500 → RETRYABLE`,
anything else `VALIDATION`). -/
def specClassifyKind (code : Nat) : ErrorCode :=
  if code = 401 then .AUTH
  else if code = 403 then .FORBIDDEN
  else if code = 404 then .NOT_FOUND
  else if code = 409 then .CONFLICT
  else if 500 ≤ code then .RETRYABLE
  else .VALIDATION

/-- C4: for every failed structured response, the classified error kind is
exactly what the spec prescribes by status code, and the error carries
`retryable = true` exactly when the kind is RETRYABLE. -/
theorem c4_error_classification (st : RunState) (r : ApiResponse)
    (_h : r.success = false) :
    (mapApiError st r).1.code = specClassifyKind r.code ∧
    ((mapApiError st r).1.retryable = true ↔
      (mapApiError st r).1.code = .RETRYABLE) := by
  simp only [mapApiError, specClassifyKind]
  split_ifs <;> simp

/-- Witness for C4: the classification at the concrete failed responses
401, 403 and 500 matches the spec's kinds with the correct retryable flag. -/
theorem c4_error_classification_witness :
    ((mapApiError stC1 resp401).1.code = specClassifyKind 401 ∧
      ((mapApiError stC1 resp401).1.retryable = true ↔
        (mapApiError stC1 resp401).1.code = .RETRYABLE)) ∧
    ((mapApiError stC1 respC1).1.code = specClassifyKind 500 ∧
      ((mapApiError stC1 respC1).1.retryable = true ↔
        (mapApiError stC1 respC1).1.code = .RETRYABLE)) := by
  exact ⟨c4_error_classification stC1 resp401 rfl,
         c4_error_classification stC1 respC1 rfl⟩

/-! ## Claim C5 -/

/-- The configuration refuting C5 as stated: an explicit `password` auth
mode with a static token also present. -/
def cfgC5bad : PhpIpamConfig :=
  { baseUrl := "https://ipam", appId := "app", authMode := .password,
    token := some "t1", username := some "u", password := some "p" }

/-- C5 counterexample: a configuration with a static token present whose
effective auth mode is `password`, not `token` — the explicit
`authMode: password` overrides token precedence. -/
theorem c5_counterexample :
    cfgC5bad.token.isSome = true ∧ getEffectiveAuthMode cfgC5bad ≠ .token := by
  decide

/-- The `{authMode: auto, token: "t1"}` configuration of the C5 scenario. -/
def cfgC5 : PhpIpamConfig :=
  { baseUrl := "https://ipam", appId := "app", authMode := .auto, token := some "t1" }

/-- C5 (amended): whenever a (truthy) static token is present and the
configured auth mode is not explicitly `password`, the effective mode is
`token`; in token mode a credential request returns the configured static
token with the run state unchanged (zero network calls); concretely,
`{authMode: auto, token: "t1"}` yields effective mode `token` and
credential `"t1"` without any HTTP exchange. -/
theorem c5_token_precedence :
    (∀ cfg : PhpIpamConfig, cfg.authMode ≠ .password →
      strOptTruthy cfg.token = true → getEffectiveAuthMode cfg = .token) ∧
    (∀ (cfg : PhpIpamConfig) (env : Env) (st : RunState),
      getEffectiveAuthMode cfg = .token →
      getAuthToken cfg env st = (.ok (cfg.token.getD ""), st)) ∧
    (∀ (env : Env) (st : RunState),
      getEffectiveAuthMode cfgC5 = .token ∧
      getAuthToken cfgC5 env st = (.ok "t1", st)) := by
  refine ⟨?_, ?_, ?_⟩
  · intro cfg h1 h2
    unfold getEffectiveAuthMode
    rcases hm : cfg.authMode
    · rfl
    · exact absurd hm h1
    · rw [if_pos h2]
  · intro cfg env st h
    exact getAuthToken_static h env st
  · intro env st
    exact ⟨rfl, getAuthToken_static (show getEffectiveAuthMode cfgC5 = .token from rfl) env st⟩

/-- Witness for C5 (amended) at concrete inputs. -/
theorem c5_token_precedence_witness :
    getEffectiveAuthMode cfgC5 = .token ∧
    getAuthToken cfgC5 envNull stC1 = (.ok "t1", stC1) := by
  exact c5_token_precedence.2.2 envNull stC1

theorem mapApiError_attempts (st : RunState) (r : ApiResponse) :
    (mapApiError st r).2.attempts = st.attempts := by
  simp only [mapApiError]
  split_ifs <;> rfl

theorem mapApiError_session_non401 (st : RunState) (r : ApiResponse)
    (h : r.code ≠ 401) : (mapApiError st r).2 = st := by
  simp only [mapApiError]
  rw [if_neg h]
  split_ifs <;> rfl

/-! ## Claim C6 -/

/-- The `{code:404, success:false}` response of the C6 scenario. -/
def resp404 : ApiResponse :=
  { code := 404, success := false, data := none, message := some "Not found" }

/-- The NOT_FOUND error `mapApiError` produces for `resp404`. -/
def nf404 : PhpIpamError :=
  { message := "Not found", code := .NOT_FOUND, statusCode := some 404,
    retryable := false }

/-- Under a transport that answers `resp404`, one `request` call performs a
single attempt and surfaces `nf404` (NOT_FOUND is not retried). -/
theorem request_404_eq (cfg : PhpIpamConfig) (env : Env) (opts : RequestOptions)
    (t : String) (st : RunState)
    (hm : getEffectiveAuthMode cfg = .password)
    (h1 : st.session.authToken = some t) (ht : t ≠ "")
    (h3 : env.now < st.session.tokenExpires)
    (hev : env.events st.httpCount = .received 404 "" (some resp404)) :
    request cfg env opts 0 st =
      (.error nf404, httpStateResp cfg (buildWire cfg env opts t) st 404 "") := by
  rw [request_http_ok opts 0 (getAuthToken_cached hm h1 ht h3)
        (httpRequest_recv_some cfg _ hev),
      if_neg (by decide)]
  have hmap : mapApiError (httpStateResp cfg (buildWire cfg env opts t) st 404 "") resp404 =
      (nf404, httpStateResp cfg (buildWire cfg env opts t) st 404 "") := rfl
  rw [hmap, if_neg (by simp [nf404])]

/-- Environment for the C6 scenario: every exchange answers `resp404`. -/
def envC6 : Env :=
  { now := 1000, events := fun _ => .received 404 "" (some resp404),
    aesB64 := fun _ d => d }

/-- C6 counterexample: `listSections` — a list operation — run against a
backend answering `{success:false, code:404}` raises a NOT_FOUND error
instead of returning an empty collection, refuting the claim's "every list
operation" quantification. -/
theorem c6_counterexample :
    (listSections cfgC1 envC6 stC1).1 = .error nf404 := by
  have hreq := request_404_eq cfgC1 envC6 { method := "GET", path := "/sections/" }
    "sess" stC1 rfl rfl (by decide) (by decide) rfl
  have hc : cfgC1.enableCache = false := rfl
  simp [listSections, listSectionsFetch, hc, hreq]

/-- C6 (amended): a `{success:false, code:404}` response is normalized to an
empty collection by the parent-scoped list operations (`listAddresses`,
`listSubnets`), while the get-by-id operation `getAddress` raises NOT_FOUND
and never returns a default — but `listSections` propagates the NOT_FOUND
error rather than returning an empty collection. -/
theorem c6_404_by_shape (cfg : PhpIpamConfig) (env : Env) (st : RunState)
    (t : String) (hm : getEffectiveAuthMode cfg = .password)
    (h1 : st.session.authToken = some t) (ht : t ≠ "")
    (h3 : env.now < st.session.tokenExpires)
    (hcache : cfg.enableCache = false)
    (hev : ∀ n, env.events n = .received 404 "" (some resp404)) :
    ∀ subnetId sectionId addrId : String,
      (listAddresses cfg env subnetId st).1 = .ok (.arr []) ∧
      (listSubnets cfg env sectionId st).1 = .ok (.arr []) ∧
      (getAddress cfg env addrId st).1 = .error nf404 ∧
      (listSections cfg env st).1 = .error nf404 := by
  intro subnetId sectionId addrId
  refine ⟨?_, ?_, ?_, ?_⟩
  · have hreq := request_404_eq cfg env
      { method := "GET", path := "/subnets/" ++ subnetId ++ "/addresses/" }
      t st hm h1 ht h3 (hev st.httpCount)
    simp [listAddresses, hreq, nf404]
  · have hreq := request_404_eq cfg env
      { method := "GET", path := "/sections/" ++ sectionId ++ "/subnets/" }
      t st hm h1 ht h3 (hev st.httpCount)
    simp [listSubnets, listSubnetsFetch, hcache, hreq, nf404]
  · have hreq := request_404_eq cfg env
      { method := "GET", path := "/addresses/" ++ addrId ++ "/" }
      t st hm h1 ht h3 (hev st.httpCount)
    simp [getAddress, hreq]
  · have hreq := request_404_eq cfg env { method := "GET", path := "/sections/" }
      t st hm h1 ht h3 (hev st.httpCount)
    simp [listSections, listSectionsFetch, hcache, hreq]

/-- Witness for C6 (amended) at concrete inputs. -/
theorem c6_404_by_shape_witness :
    (listAddresses cfgC1 envC6 "5" stC1).1 = .ok (.arr []) ∧
    (listSubnets cfgC1 envC6 "1" stC1).1 = .ok (.arr []) ∧
    (getAddress cfgC1 envC6 "7" stC1).1 = .error nf404 ∧
    (listSections cfgC1 envC6 stC1).1 = .error nf404 := by
  exact c6_404_by_shape cfgC1 envC6 stC1 "sess" rfl rfl (by decide) (by decide)
    rfl (fun n => rfl) "5" "1" "7"

/-! ## Claim C7 -/

theorem useCrypt_token {cfg : PhpIpamConfig} (h : useCrypt cfg = true) :
    getEffectiveAuthMode cfg = .token := by
  unfold useCrypt at h
  cases hm : getEffectiveAuthMode cfg
  · rfl
  · rw [hm] at h; cases h

/-- Every wire request recorded by a crypt-mode `request` run that was not
already in the initial state is the crypt-mode wire built for this call. -/
theorem request_crypt_attempts (cfg : PhpIpamConfig) (env : Env)
    (opts : RequestOptions) (hc : useCrypt cfg = true) :
    ∀ k r st, cfg.maxRetries - r = k →
      ∀ w ∈ (request cfg env opts r st).2.attempts,
        w ∈ st.attempts ∨ w = buildWire cfg env opts (cfg.token.getD "") := by
  have hga : ∀ st : RunState, getAuthToken cfg env st = (.ok (cfg.token.getD ""), st) :=
    getAuthToken_static (useCrypt_token hc) env
  intro k
  induction k using Nat.strong_induction_on with
  | _ k ih =>
    intro r st hk w hw
    cases hevn : env.events st.httpCount with
    | received sc raw parsed =>
      cases parsed with
      | some p =>
        rw [request_http_ok opts r (hga st) (httpRequest_recv_some cfg _ hevn)] at hw
        by_cases hs : p.success = true
        · rw [if_pos hs] at hw
          simp only [httpStateResp_attempts, List.mem_append,
            List.mem_singleton] at hw
          exact hw
        · rw [if_neg hs] at hw
          by_cases hrc : (mapApiError
              (httpStateResp cfg (buildWire cfg env opts (cfg.token.getD "")) st sc raw)
              p).1.retryable = true ∧ r < cfg.maxRetries
          · rw [if_pos hrc] at hw
            have hrec := ih (cfg.maxRetries - (r + 1)) (by omega) (r + 1) _ rfl w hw
            rcases hrec with h | h
            · simp only [mapApiError_attempts, httpStateResp_attempts,
                List.mem_append, List.mem_singleton] at h
              exact h
            · exact .inr h
          · rw [if_neg hrc] at hw
            simp only [mapApiError_attempts, httpStateResp_attempts,
              List.mem_append, List.mem_singleton] at hw
            exact hw
      | none =>
        rw [request_http_ok opts r (hga st) (httpRequest_recv_none cfg _ hevn)] at hw
        rw [if_neg (by simp)] at hw
        by_cases hrc : (mapApiError
            (httpStateResp cfg (buildWire cfg env opts (cfg.token.getD "")) st sc raw)
            { code := sc, success := false, data := none,
              message := some ("Failed to parse response: " ++ takeChars 200 raw) }).1.retryable =
              true ∧ r < cfg.maxRetries
        · rw [if_pos hrc] at hw
          have hrec := ih (cfg.maxRetries - (r + 1)) (by omega) (r + 1) _ rfl w hw
          rcases hrec with h | h
          · simp only [mapApiError_attempts, httpStateResp_attempts,
              List.mem_append, List.mem_singleton] at h
            exact h
          · exact .inr h
        · rw [if_neg hrc] at hw
          simp only [mapApiError_attempts, httpStateResp_attempts,
            List.mem_append, List.mem_singleton] at hw
          exact hw
    | netError msg =>
      rw [request_http_error opts r (hga st) (httpRequest_netError cfg _ hevn)] at hw
      by_cases hrc : r < cfg.maxRetries
      · rw [if_pos ⟨rfl, hrc⟩] at hw
        have hrec := ih (cfg.maxRetries - (r + 1)) (by omega) (r + 1) _ rfl w hw
        rcases hrec with h | h
        · simp only [httpStateBase_attempts, List.mem_append,
            List.mem_singleton] at h
          exact h
        · exact .inr h
      · rw [if_neg (fun hcond => hrc hcond.2)] at hw
        simp only [httpStateBase_attempts, List.mem_append,
          List.mem_singleton] at hw
        exact hw
    | timeout =>
      rw [request_http_error opts r (hga st) (httpRequest_timeout cfg _ hevn)] at hw
      by_cases hrc : r < cfg.maxRetries
      · rw [if_pos ⟨rfl, hrc⟩] at hw
        have hrec := ih (cfg.maxRetries - (r + 1)) (by omega) (r + 1) _ rfl w hw
        rcases hrec with h | h
        · simp only [httpStateBase_attempts, List.mem_append,
            List.mem_singleton] at h
          exact h
        · exact .inr h
      · rw [if_neg (fun hcond => hrc hcond.2)] at hw
        simp only [httpStateBase_attempts, List.mem_append,
          List.mem_singleton] at hw
        exact hw

/-- C7: while encrypted transport mode is active, the wire call for any
logical method is a GET with no body, against the app root, with one query
parameter holding the percent-encoded, AES-encrypted (keyed by the padded
credential) JSON serialization of the parameter object; that object is the
body fields assigned onto a base of `controller` (first non-empty path
segment) and `id` (second segment, when present); and every wire request a
crypt-mode `request` run issues has exactly this shape. -/
theorem c7_crypt_wire (cfg : PhpIpamConfig) (env : Env) (opts : RequestOptions)
    (t : String) (hc : useCrypt cfg = true) :
    (buildWire cfg env opts t =
      { method := "GET"
      , url := cfg.baseUrl ++ "/api/" ++ cfg.appId ++ "/?enc_request=" ++
          encodeURIComponent (env.aesB64 (padKey32 t)
            (Json.stringify (.obj (cryptParams opts.path opts.body))))
      , headers := [("Content-Type", "application/json")]
      , body := none }) ∧
    (cryptParams opts.path opts.body =
      objAssign
        ([("controller", .str ((nonEmptySegs opts.path).headD ""))] ++
          (if (nonEmptySegs opts.path).length > 1 then
            [("id", .str ((nonEmptySegs opts.path).getD 1 ""))]
           else []))
        (opts.body.getD [])) ∧
    (∀ st : RunState, st.attempts = [] →
      ∀ w ∈ (request cfg env opts 0 st).2.attempts,
        w = buildWire cfg env opts (cfg.token.getD "")) := by
  refine ⟨?_, ?_, ?_⟩
  · unfold buildWire
    rw [if_pos hc]
    rfl
  · unfold cryptParams
    rcases opts.body with _ | b <;>
      (simp only [Option.getD]
       split_ifs with hlen <;> simp [setField, objAssign])
  · intro st hempty w hw
    rcases request_crypt_attempts cfg env opts hc (cfg.maxRetries - 0) 0 st rfl w hw with h | h
    · rw [hempty] at h
      cases h
    · exact h

/-- The logical call of the C7 witness scenario. -/
def optsC7 : RequestOptions :=
  { method := "POST", path := "/subnets/9/addresses/", body := some [("ip", .str "10.0.0.1")] }

/-- Witness for C7: for the `{authMode: auto, token: "t1"}` configuration,
the wire request built for a POST with a body is a bodyless GET whose query
string carries the encrypted parameter object. -/
theorem c7_crypt_wire_witness :
    (buildWire cfgC5 envNull optsC7 "t1").method = "GET" ∧
    (buildWire cfgC5 envNull optsC7 "t1").body = none ∧
    (buildWire cfgC5 envNull optsC7 "t1").url =
      cfgC5.baseUrl ++ "/api/" ++ cfgC5.appId ++ "/?enc_request=" ++
        encodeURIComponent (envNull.aesB64 (padKey32 "t1")
          (Json.stringify (.obj (cryptParams optsC7.path optsC7.body)))) := by
  have h := (c7_crypt_wire cfgC5 envNull optsC7 "t1" (by decide)).1
  rw [h]
  exact ⟨rfl, rfl, rfl⟩

/-! ## Claim C8 -/

/-- C8: in password mode (a) a credential request before the tracked expiry
returns the cached session token with the run state unchanged (no network
call); (b) a successful login at time `env.now` sets the tracked expiry to
exactly `env.now + 5` hours — one hour ahead of the provider's nominal
6-hour lifetime; and (c) a credential request at or after the tracked
expiry issues a fresh login exchange on the wire. -/
theorem c8_token_expiry :
    (∀ (cfg : PhpIpamConfig) (env : Env) (st : RunState) (t : String),
      getEffectiveAuthMode cfg = .password → st.session.authToken = some t →
      t ≠ "" → env.now < st.session.tokenExpires →
      getAuthToken cfg env st = (.ok t, st)) ∧
    (∀ (cfg : PhpIpamConfig) (env : Env) (st : RunState) (sc : Nat)
      (raw : String) (resp : ApiResponse) (tok : String),
      getEffectiveAuthMode cfg = .password → st.session.authToken = none →
      env.events st.httpCount = .received sc raw (some resp) →
      resp.success = true → authTokenField resp.data = some tok →
      (getAuthToken cfg env st).2.session =
        { authToken := some tok, tokenExpires := env.now + 5 * 60 * 60 * 1000 }) ∧
    (∀ (cfg : PhpIpamConfig) (env : Env) (st : RunState) (t : String),
      getEffectiveAuthMode cfg = .password → st.session.authToken = some t →
      st.session.tokenExpires ≤ env.now →
      (getAuthToken cfg env st).2.attempts = st.attempts ++ [loginWire cfg]) := by
  refine ⟨?_, ?_, ?_⟩
  · intro cfg env st t hm h1 ht h3
    exact getAuthToken_cached hm h1 ht h3
  · intro cfg env st sc raw resp tok hm h1 hev hs hf
    rw [getAuthToken_fresh_none hm h1 env]
    unfold performLogin
    rw [httpRequest_recv_some cfg (loginWire cfg) hev]
    simp [hs, hf]
  · intro cfg env st t hm h1 hexp
    have hni : ¬ (t ≠ "" ∧ env.now < st.session.tokenExpires) :=
      fun hcon => absurd hcon.2 (by omega)
    rw [getAuthToken_fresh_expired hm h1 hni]
    exact performLogin_attempts cfg env st

/-- Session state of the C8 witness scenario: a token obtained at time 0,
tracked to expire at `5h = 18000000 ms`. -/
def stC8 : RunState :=
  { session := { authToken := some "sess", tokenExpires := 18000000 } }

/-- Environment of the C8 witness scenario: the clock reads `T + 5h1m`. -/
def envC8 : Env :=
  { now := 18060000, events := fun _ => .timeout, aesB64 := fun _ d => d }

/-- Witness for C8: before expiry the cached token is returned without any
state change; the login of the C2 scenario at `now = 1000` tracks expiry
`1000 + 5h`; and at `T + 5h1m` the credential request issues the login
exchange. -/
theorem c8_token_expiry_witness :
    getAuthToken cfgC2 envNull stC1 = (.ok "sess", stC1) ∧
    (getAuthToken cfgC2 envC2 {}).2.session =
      { authToken := some "sessSECRET", tokenExpires := 1000 + 5 * 60 * 60 * 1000 } ∧
    (getAuthToken cfgC2 envC8 stC8).2.attempts = [] ++ [loginWire cfgC2] := by
  refine ⟨c8_token_expiry.1 cfgC2 envNull stC1 "sess" rfl rfl (by decide) (by decide),
          c8_token_expiry.2.1 cfgC2 envC2 {} 200 rawC2 _ "sessSECRET" rfl rfl rfl rfl
            (by decide),
          c8_token_expiry.2.2 cfgC2 envC8 stC8 "sess" rfl rfl (by decide)⟩

/-! ## Claim C9 -/

/-- C9: in password mode with no cached session token, a retryable
transport failure (timeout or connection failure) of the login exchange
propagates directly out of `request` — no backoff sleep is performed and no
API attempt is made, whatever `maxRetries` is; the only wire exchange of
the run is the login itself, issued before the retry loop's try block. -/
theorem c9_login_failure_propagates (cfg : PhpIpamConfig) (env : Env)
    (opts : RequestOptions) (st : RunState)
    (hm : getEffectiveAuthMode cfg = .password)
    (h1 : st.session.authToken = none)
    (hev : env.events st.httpCount = .timeout ∨
      ∃ msg, env.events st.httpCount = .netError msg) :
    (∃ e, (request cfg env opts 0 st).1 = .error e ∧
      e.retryable = true ∧ e.code = .RETRYABLE) ∧
    (request cfg env opts 0 st).2.sleeps = st.sleeps ∧
    (request cfg env opts 0 st).2.attempts = st.attempts ++ [loginWire cfg] := by
  have hga := getAuthToken_fresh_none hm h1 env
  rcases hev with hto | ⟨msg, hne⟩
  · have hpl := performLogin_reject (httpRequest_timeout cfg (loginWire cfg) hto)
    rw [request_auth_error opts 0 (hga.trans hpl)]
    exact ⟨⟨_, rfl, rfl, rfl⟩, by simp, by simp⟩
  · have hpl := performLogin_reject (httpRequest_netError cfg (loginWire cfg) hne)
    rw [request_auth_error opts 0 (hga.trans hpl)]
    exact ⟨⟨_, rfl, rfl, rfl⟩, by simp, by simp⟩

/-- Witness for C9: with an empty session and a transport that times out,
the call surfaces a RETRYABLE error having performed zero sleeps and only
the login exchange, although `maxRetries = 3`. -/
theorem c9_login_failure_propagates_witness :
    (∃ e, (request cfgC2 envNull optsC1 0 {}).1 = .error e ∧
      e.retryable = true ∧ e.code = .RETRYABLE) ∧
    (request cfgC2 envNull optsC1 0 {}).2.sleeps = [] ∧
    (request cfgC2 envNull optsC1 0 {}).2.attempts = [] ++ [loginWire cfgC2] := by
  have h := c9_login_failure_propagates cfgC2 envNull optsC1 {} rfl rfl (.inl rfl)
  exact ⟨h.1, h.2.1, h.2.2⟩

/-! ## Claim C10 -/

/-- C10: `health` returns a `{healthy, message}` record on every outcome
(being total, it never raises): `healthy = true` exactly when the
underlying `listSections` call succeeds; on any client error — AUTH and
RETRYABLE included — it absorbs the failure, returning `healthy = false`
with the error's message. -/
theorem c10_health_absorbs (cfg : PhpIpamConfig) (env : Env) (st : RunState) :
    ((health cfg env st).1.healthy = true ↔
      ∃ v st1, listSections cfg env st = (.ok v, st1)) ∧
    (∀ (e : PhpIpamError) (st1 : RunState),
      listSections cfg env st = (.error e, st1) →
      (health cfg env st).1 = { healthy := false, message := e.message }) ∧
    ((health cfg env st).1.healthy = true →
      (health cfg env st).1.message = "Connected to phpIPAM") := by
  rcases hls : listSections cfg env st with ⟨res, st1⟩
  rcases res with e | v
  · have hh : health cfg env st = ({ healthy := false, message := e.message }, st1) := by
      unfold health
      rw [hls]
    rw [hh]
    refine ⟨?_, ?_, ?_⟩
    · constructor
      · intro hcontra
        simp at hcontra
      · rintro ⟨v, st2, hv⟩
        simp at hv
    · intro e2 st2 heq
      have he : Except.error (ε := PhpIpamError) (α := Json) e = .error e2 :=
        (Prod.mk.injEq _ _ _ _ |>.mp heq).1
      have he2 : e = e2 := by injection he
      rw [he2]
    · intro hcontra
      simp at hcontra
  · have hh : health cfg env st =
        ({ healthy := true, message := "Connected to phpIPAM" }, st1) := by
      unfold health
      rw [hls]
    rw [hh]
    refine ⟨⟨fun _ => ⟨v, st1, rfl⟩, fun _ => rfl⟩, ?_, fun _ => rfl⟩
    intro e2 st2 heq
    simp at heq

/-- Witness for C10: against a backend answering 404, `health` absorbs the
NOT_FOUND client error into `{healthy := false, message := "Not found"}`. -/
theorem c10_health_absorbs_witness :
    (health cfgC1 envC6 stC1).1 = { healthy := false, message := "Not found" } := by
  have hreq := request_404_eq cfgC1 envC6 { method := "GET", path := "/sections/" }
    "sess" stC1 rfl rfl (by decide) (by decide) rfl
  have hc : cfgC1.enableCache = false := rfl
  have hls : listSections cfgC1 envC6 stC1 =
      (.error nf404,
       httpStateResp cfgC1
         (buildWire cfgC1 envC6 { method := "GET", path := "/sections/" } "sess")
         stC1 404 "") := by
    simp [listSections, listSectionsFetch, hc, hreq]
  exact (c10_health_absorbs cfgC1 envC6 stC1).2.1 nf404 _ hls

end PhpIpamMcp
